import Mathlib

/-!
Shallow embedding of the dwmstatus core (src/src/main.rs): the shared
display-field state, the per-producer write paths, the clock-alignment
arithmetic of the time thread, the sensor sampling loop, the route parsing of
the network thread, and the volume fragment computation.

The shared state guarded by the mutex together with the condition variable is
modelled as a pair of the DisplayFields record and a counter of notify_one
calls; the locked section of each producer becomes a pure state transformer.
-/

namespace DwmStatus

/-- The five producer identities, one per field of DisplayFields. -/
inductive Source
  | time
  | systemstat
  | temp
  | net
  | volume
deriving DecidableEq

/-- struct DisplayFields (src/src/main.rs:37-44). -/
structure DisplayFields where
  time : String
  systemstat : String
  temp : String
  net : String
  volume : String
deriving DecidableEq

/-- impl ToString for DisplayFields (src/src/main.rs:46-54): the five fields
concatenated in the fixed order volume, net, systemstat, temp, time. -/
def DisplayFields.toString (df : DisplayFields) : String :=
  df.volume ++ df.net ++ df.systemstat ++ df.temp ++ df.time

/-- The initial DisplayFields built in main (src/src/main.rs:329-335): every
field starts as the empty string. -/
def initFields : DisplayFields :=
  { time := "", systemstat := "", temp := "", net := "", volume := "" }

/-- The lock-guarded fields together with a count of notify_one calls. -/
abbrev SharedState := DisplayFields × Nat

/-- The locked write in time_thread (src/src/main.rs:68-72): store the new
fragment and notify unconditionally, with no equality check. -/
def timeWrite (f : String) (s : SharedState) : SharedState :=
  ({ s.1 with time := f }, s.2 + 1)

/-- The locked write in systemstat_thread (src/src/main.rs:122-128): store the
new fragment and notify only when it differs from the stored one. -/
def systemstatWrite (f : String) (s : SharedState) : SharedState :=
  if s.1.systemstat ≠ f then ({ s.1 with systemstat := f }, s.2 + 1) else s

/-- The locked write in sensors_thread (src/src/main.rs:153-159): store the
new fragment and notify only when it differs from the stored one. -/
def tempWrite (f : String) (s : SharedState) : SharedState :=
  if s.1.temp ≠ f then ({ s.1 with temp := f }, s.2 + 1) else s

/-- The locked write in network_thread (src/src/main.rs:223-227): store the
new fragment and notify unconditionally, with no equality check. -/
def netWrite (f : String) (s : SharedState) : SharedState :=
  ({ s.1 with net := f }, s.2 + 1)

/-- The locked write in volume_thread (src/src/main.rs:282-288): store the new
fragment and notify only when it differs from the stored one. -/
def volumeWrite (f : String) (s : SharedState) : SharedState :=
  if s.1.volume ≠ f then ({ s.1 with volume := f }, s.2 + 1) else s

/-- Dispatch a write to the slot owned by the given source, with that
producer's own store-and-notify discipline. -/
def applyWrite : SharedState → Source × String → SharedState
  | s, (Source.time, f) => timeWrite f s
  | s, (Source.systemstat, f) => systemstatWrite f s
  | s, (Source.temp, f) => tempWrite f s
  | s, (Source.net, f) => netWrite f s
  | s, (Source.volume, f) => volumeWrite f s

/-- An interleaving of producer writes, applied in arrival order. -/
def applyWrites : SharedState → List (Source × String) → SharedState
  | s, [] => s
  | s, w :: ws => applyWrites (applyWrite s w) ws

/-- The value most recently written for a source in a write sequence, or the
given initial value when the source never wrote. -/
def lastVal (src : Source) : String → List (Source × String) → String
  | init, [] => init
  | init, w :: ws => lastVal src (if w.1 = src then w.2 else init) ws

/-- next_ts in time_thread (src/src/main.rs:75): one minute past the truncated
current minute. timestamp_millis is an i64 in the source; for the nonnegative
times of the claim Rust's truncating division agrees with Nat division. -/
def next_ts (now_ts : Nat) : Nat := (now_ts / 60000 + 1) * 60000

/-- sleep_time in time_thread (src/src/main.rs:76): next_ts minus now_ts. -/
def sleep_time (now_ts : Nat) : Nat := next_ts now_ts - now_ts

/-- Modelled from the spec wording only, for comparison with sleep_time: the
delay to the enclosing minute boundary, rounding the minute index up. -/
def specCeilDelay (now_ts : Nat) : Nat := ((now_ts + 59999) / 60000) * 60000 - now_ts

/-- Rust one-decimal fixed formatting of the sensor value, with the f64
reading modelled as a rational, rounded to nearest at one decimal place. -/
def fmtFixed1 (v : Rat) : String :=
  let n : Int := round (v * 10)
  let sgn := if n < 0 then "-" else ""
  sgn ++ Nat.repr (n.natAbs / 10) ++ "." ++ Nat.repr (n.natAbs % 10)

/-- The fragment built in sensors_thread (src/src/main.rs:152): thermometer
glyph, space, the value at one decimal place, then the separator. -/
def formatTemp (v : Rat) : String := "🌡 " ++ fmtFixed1 v ++ " ⸱ "

/-- One iteration of the sampling loop of sensors_thread
(src/src/main.rs:151-161). The argument is the result of
temp_sensor.get_value(); on Err the source calls unwrap, which panics the
thread, modelled as none (no successor state, no write). On Ok the formatted
fragment goes through the conditional write. -/
def sensorsIterationWrite (reading : Option Rat) (s : SharedState) :
    Option SharedState :=
  match reading with
  | none => none
  | some v => some (tempWrite (formatTemp v) s)

/-- The sampling loop of sensors_thread run over a finite prefix of read
results: the final state and the number of reads performed, or none once an
iteration panics. -/
def sensorsLoop : List (Option Rat) → SharedState → Nat → Option (SharedState × Nat)
  | [], s, k => some (s, k)
  | r :: rs, s, k =>
    match sensorsIterationWrite r s with
    | none => none
    | some s2 => sensorsLoop rs s2 (k + 1)

/-- sensors_thread (src/src/main.rs:148-163): one-time discovery via
find_cpu_temp; when no temperature-input channel is found the body is skipped
entirely and the thread returns, otherwise the sampling loop runs over the
given read results. -/
def sensors_thread_model (discovery : Option Unit) (reads : List (Option Rat))
    (s : SharedState) : Option (SharedState × Nat) :=
  match discovery with
  | none => some (s, 0)
  | some _ => sensorsLoop reads s 0

/-- The word character class of the route regex, over the ASCII range
(interface names are ASCII; the source regex engine's class is wider). -/
def isWordChar (c : Char) : Bool := c.isAlphanum || c == '_'

/-- One anchored attempt of the route regex (src/src/main.rs:180) at the head
of the character list: the literal letters d, e, v, a space, then a nonempty
greedy word-character run captured, then a mandatory trailing space. -/
def matchDevAt (cs : List Char) : Option String :=
  match cs with
  | 'd' :: 'e' :: 'v' :: ' ' :: rest =>
    let run := rest.takeWhile isWordChar
    if run ≠ [] ∧ (rest.dropWhile isWordChar).head? = some ' ' then
      some (String.mk run)
    else none
  | _ => none

/-- Leftmost match of the route regex over the whole output, as RE.captures
does in get_current_interface. -/
def findDev : List Char → Option String
  | [] => none
  | c :: cs =>
    match matchDevAt (c :: cs) with
    | some tok => some tok
    | none => findDev cs

/-- get_current_interface (src/src/main.rs:178-193). The argument is the
decoded stdout of the route query subprocess; none models the chain_err
failure paths (spawn failure or output that is not valid UTF-8), collapsed
into one error value. -/
def get_current_interface (subOut : Option String) : Except String String :=
  match subOut with
  | none => Except.error "subprocess"
  | some out =>
    match findDev out.toList with
    | some iface => Except.ok iface
    | none => Except.error "No current interface."

/-- The fragment computed at the top of the loop of network_thread
(src/src/main.rs:211-222): wireless glyph when the current interface is in
the wireless set, wired glyph otherwise, empty on a resolution error. -/
def newSymbol (wifs : List String) (subOut : Option String) : String :=
  match get_current_interface subOut with
  | Except.ok interface => if wifs.contains interface then "📡 ⸱ " else "⇅ ⸱ "
  | Except.error _ => ""

/-- One iteration of the loop of network_thread (src/src/main.rs:211-229):
compute the symbol, then store and notify unconditionally. -/
def network_iteration (wifs : List String) (subOut : Option String)
    (s : SharedState) : SharedState :=
  netWrite (newSymbol wifs subOut) s

/-- The speaker glyph chosen in volume (src/src/main.rs:258-262): the ranges
0 to 33 and 34 to 66 inclusive, and a catch-all for everything else. -/
def speaker (v : Int) : String :=
  if 0 ≤ v ∧ v ≤ 33 then "🔈"
  else if 34 ≤ v ∧ v ≤ 66 then "🔉"
  else "🔊"

/-- volume (src/src/main.rs:250-266). The arguments are the results of the
get_mute and get_volume subprocess queries, none being the Err case. A muted
report short-circuits to the mute glyph; otherwise a parsed level is rendered
as the speaker glyph, a space, the numeral and the separator; with both
queries failed the fragment is empty. -/
def volume (muteQ : Option Bool) (volQ : Option Int) : String :=
  if muteQ = some true then "🔇 ⸱ "
  else
    match volQ with
    | some v => speaker v ++ " " ++ toString v ++ " ⸱ "
    | none => ""

/-- C1: for every interleaving of producer writes from any starting state, the
composed string is the concatenation, in the fixed source order volume,
network, system-load, temperature, clock, of each source's most recently
written value (or its starting value); it depends on the write sequence only
through those per-source last values, never on arrival order. -/
theorem C1_composed_fixed_order (ws : List (Source × String)) :
    ∀ s : SharedState,
      DisplayFields.toString (applyWrites s ws).1 =
        lastVal Source.volume s.1.volume ws ++ lastVal Source.net s.1.net ws ++
          lastVal Source.systemstat s.1.systemstat ws ++
          lastVal Source.temp s.1.temp ws ++ lastVal Source.time s.1.time ws := by
  induction ws with
  | nil => intro s; rfl
  | cons w ws ih =>
    intro s
    obtain ⟨src, f⟩ := w
    cases src
    case time => exact ih (timeWrite f s)
    case net => exact ih (netWrite f s)
    case systemstat =>
      show DisplayFields.toString (applyWrites (systemstatWrite f s) ws).1 = _
      by_cases h : s.1.systemstat = f
      · have e : systemstatWrite f s = s := by simp [systemstatWrite, h]
        rw [e]; subst h; exact ih s
      · have e : systemstatWrite f s = ({ s.1 with systemstat := f }, s.2 + 1) := by
          simp [systemstatWrite, h]
        rw [e]; exact ih ({ s.1 with systemstat := f }, s.2 + 1)
    case temp =>
      show DisplayFields.toString (applyWrites (tempWrite f s) ws).1 = _
      by_cases h : s.1.temp = f
      · have e : tempWrite f s = s := by simp [tempWrite, h]
        rw [e]; subst h; exact ih s
      · have e : tempWrite f s = ({ s.1 with temp := f }, s.2 + 1) := by
          simp [tempWrite, h]
        rw [e]; exact ih ({ s.1 with temp := f }, s.2 + 1)
    case volume =>
      show DisplayFields.toString (applyWrites (volumeWrite f s) ws).1 = _
      by_cases h : s.1.volume = f
      · have e : volumeWrite f s = s := by simp [volumeWrite, h]
        rw [e]; subst h; exact ih s
      · have e : volumeWrite f s = ({ s.1 with volume := f }, s.2 + 1) := by
          simp [volumeWrite, h]
        rw [e]; exact ih ({ s.1 with volume := f }, s.2 + 1)

/-- C2 counterexample: writing the same fragment twice in a row through the
clock source's write path raises two notifications, not at most one, because
time_thread stores and notifies unconditionally (src/src/main.rs:68-72). -/
theorem C2_counterexample :
    ¬ ((applyWrite (applyWrite (initFields, 0) (Source.time, "x")) (Source.time, "x")).2 ≤
        (initFields, (0 : Nat)).2 + 1) := by
  decide

/-- C2 amended: the write-if-changed discipline holds for the system-load,
temperature and volume sources, whose duplicate writes are absorbed entirely
(at most one notification); the clock and network write paths store and
notify unconditionally, so a duplicate write there raises a second
notification; in every case the composed string is left unchanged by the
duplicate write. -/
theorem C2_amended (f : String) (s : SharedState) :
    applyWrite (applyWrite s (Source.systemstat, f)) (Source.systemstat, f) =
      applyWrite s (Source.systemstat, f) ∧
    applyWrite (applyWrite s (Source.temp, f)) (Source.temp, f) =
      applyWrite s (Source.temp, f) ∧
    applyWrite (applyWrite s (Source.volume, f)) (Source.volume, f) =
      applyWrite s (Source.volume, f) ∧
    (applyWrite (applyWrite s (Source.time, f)) (Source.time, f)).2 = s.2 + 2 ∧
    (applyWrite (applyWrite s (Source.net, f)) (Source.net, f)).2 = s.2 + 2 ∧
    ∀ src : Source,
      DisplayFields.toString (applyWrite (applyWrite s (src, f)) (src, f)).1 =
        DisplayFields.toString (applyWrite s (src, f)).1 := by
  have hs : applyWrite (applyWrite s (Source.systemstat, f)) (Source.systemstat, f) =
      applyWrite s (Source.systemstat, f) := by
    show systemstatWrite f (systemstatWrite f s) = systemstatWrite f s
    by_cases h : s.1.systemstat = f
    · have e : systemstatWrite f s = s := by simp [systemstatWrite, h]
      rw [e]; exact e
    · have e : systemstatWrite f s = ({ s.1 with systemstat := f }, s.2 + 1) := by
        simp [systemstatWrite, h]
      rw [e]; simp [systemstatWrite]
  have ht : applyWrite (applyWrite s (Source.temp, f)) (Source.temp, f) =
      applyWrite s (Source.temp, f) := by
    show tempWrite f (tempWrite f s) = tempWrite f s
    by_cases h : s.1.temp = f
    · have e : tempWrite f s = s := by simp [tempWrite, h]
      rw [e]; exact e
    · have e : tempWrite f s = ({ s.1 with temp := f }, s.2 + 1) := by
        simp [tempWrite, h]
      rw [e]; simp [tempWrite]
  have hv : applyWrite (applyWrite s (Source.volume, f)) (Source.volume, f) =
      applyWrite s (Source.volume, f) := by
    show volumeWrite f (volumeWrite f s) = volumeWrite f s
    by_cases h : s.1.volume = f
    · have e : volumeWrite f s = s := by simp [volumeWrite, h]
      rw [e]; exact e
    · have e : volumeWrite f s = ({ s.1 with volume := f }, s.2 + 1) := by
        simp [volumeWrite, h]
      rw [e]; simp [volumeWrite]
  refine ⟨hs, ht, hv, rfl, rfl, ?_⟩
  intro src
  cases src
  case time => rfl
  case net => rfl
  case systemstat => rw [hs]
  case temp => rw [ht]
  case volume => rw [hv]

/-- C3 counterexample: at a time exactly on a minute boundary the delay the
code computes is a full minute, while the formula of the claim gives zero. -/
theorem C3_counterexample : sleep_time 60000 = 60000 ∧ specCeilDelay 60000 = 0 := by
  constructor <;> decide

/-- C3 amended: the computed delay is the time to the strictly next minute
boundary, a full minute minus the offset into the current minute; it agrees
with the rounding-up formula of the claim exactly when the current time is
not on a boundary, is always positive (the producer never spins), and on a
boundary is one full minute, not zero. -/
theorem C3_amended (now : Nat) :
    sleep_time now = 60000 - now % 60000 ∧
    0 < sleep_time now ∧
    sleep_time now ≤ 60000 ∧
    (now % 60000 ≠ 0 → sleep_time now = specCeilDelay now) ∧
    (now % 60000 = 0 → sleep_time now = 60000 ∧ specCeilDelay now = 0) := by
  unfold sleep_time next_ts specCeilDelay
  refine ⟨by omega, by omega, by omega, fun h => by omega, fun h => ⟨by omega, by omega⟩⟩

/-- C3 witness: at a concrete time off the boundary the code's delay matches
the claim's rounding-up formula. -/
theorem C3_witness : sleep_time 90000 = specCeilDelay 90000 :=
  (C3_amended 90000).2.2.2.1 (by decide)

/-- C4 counterexample: a failing sensor read in an iteration of the sampling
loop yields no successor state at all (the unwrap panics the thread); the
cycle does not degrade to a placeholder fragment and the loop does not reach
the next sample. -/
theorem C4_counterexample : sensorsIterationWrite none (initFields, 0) = none := rfl

/-- C4 amended: after discovery, a failing sensor read panics the temperature
producer through unwrap, terminating its loop with no write for that cycle or
any later one; only a successful read produces a fragment, which then goes
through the conditional write. -/
theorem C4_amended (s : SharedState) (reads : List (Option Rat)) (k : Nat) :
    sensorsIterationWrite none s = none ∧
    sensorsLoop (none :: reads) s k = none ∧
    ∀ v : Rat, sensorsIterationWrite (some v) s = some (tempWrite (formatTemp v) s) :=
  ⟨rfl, rfl, fun _ => rfl⟩

/-- Auxiliary: a write sequence touching no temp slot leaves the temp field of
any starting state unchanged. -/
theorem applyWrites_temp_eq (l : List (Source × String)) :
    ∀ s : SharedState, (∀ w ∈ l, w.1 ≠ Source.temp) →
      (applyWrites s l).1.temp = s.1.temp := by
  induction l with
  | nil => intro s _; rfl
  | cons w l ihl =>
    intro s hl
    obtain ⟨src, f⟩ := w
    have hsrc : src ≠ Source.temp := hl (src, f) (List.mem_cons_self _ _)
    have htail : ∀ w ∈ l, w.1 ≠ Source.temp := fun w hw => hl w (List.mem_cons_of_mem _ hw)
    show (applyWrites (applyWrite s (src, f)) l).1.temp = s.1.temp
    rw [ihl _ htail]
    cases src
    case time => rfl
    case net => rfl
    case temp => exact absurd rfl hsrc
    case systemstat =>
      show (systemstatWrite f s).1.temp = s.1.temp
      unfold systemstatWrite
      split <;> rfl
    case volume =>
      show (volumeWrite f s).1.temp = s.1.temp
      unfold volumeWrite
      split <;> rfl

/-- C5: when the one-time discovery finds no temperature-input channel, the
temperature producer performs no sensor read and no write at all (the shared
state, notification count included, is untouched by it), and across any
interleaving of the other producers' writes the temp field keeps its initial
empty value for the whole run. -/
theorem C5_no_channel (reads : List (Option Rat)) (ws : List (Source × String))
    (hws : ∀ w ∈ ws, w.1 ≠ Source.temp) :
    sensors_thread_model none reads (initFields, 0) = some ((initFields, 0), 0) ∧
    (applyWrites (initFields, 0) ws).1.temp = "" := by
  exact ⟨rfl, applyWrites_temp_eq ws (initFields, 0) hws⟩

/-- C5 witness: with reads pending and a clock write in the interleaving, the
no-channel run performs zero reads and the temp field stays empty. -/
theorem C5_witness :
    sensors_thread_model none [none, some 42] (initFields, 0) = some ((initFields, 0), 0) ∧
    (applyWrites (initFields, 0) [(Source.time, "x")]).1.temp = "" :=
  C5_no_channel [none, some 42] [(Source.time, "x")] (by decide)

/-- C6: whenever route resolution fails, in any of its ways, an iteration of
the network producer stores the empty fragment (with its unconditional
notification) and yields a successor state, so the loop proceeds to its next
blocking read rather than terminating. -/
theorem C6_route_failure (wifs : List String) (s : SharedState)
    (subOut : Option String) (e : String)
    (h : get_current_interface subOut = Except.error e) :
    network_iteration wifs subOut s = ({ s.1 with net := "" }, s.2 + 1) := by
  unfold network_iteration netWrite newSymbol
  rw [h]

/-- C6 witness: a spawn failure of the route query produces the empty network
fragment and a continuing state. -/
theorem C6_witness :
    network_iteration [] none (initFields, 0) = ({ initFields with net := "" }, 1) :=
  C6_route_failure [] (initFields, 0) none "subprocess" rfl

/-- C7 counterexample: an iteration whose newly computed fragment equals the
stored one (both empty here) still raises a notification, contradicting the
write-if-changed discipline the claim asserts for the network producer. -/
theorem C7_counterexample :
    (initFields, (0 : Nat)).1.net = newSymbol [] none ∧
    (network_iteration [] none (initFields, 0)).2 = 1 :=
  ⟨rfl, rfl⟩

/-- C7 amended: the network producer stores its freshly computed fragment and
notifies the consumer unconditionally on every iteration; in particular when
the new fragment equals the stored one the fields are unchanged yet the
notification count still increases. -/
theorem C7_amended (wifs : List String) (subOut : Option String)
    (df : DisplayFields) (n : Nat) (hsame : df.net = newSymbol wifs subOut) :
    (network_iteration wifs subOut (df, n)).1 = df ∧
    (network_iteration wifs subOut (df, n)).2 = n + 1 := by
  constructor
  · show ({ df with net := newSymbol wifs subOut } : DisplayFields) = df
    rw [← hsame]
  · rfl

/-- C7 witness: the unchanged-fragment iteration at the initial state leaves
the fields alone and still notifies once. -/
theorem C7_witness :
    (network_iteration [] none (initFields, 0)).1 = initFields ∧
    (network_iteration [] none (initFields, 0)).2 = 0 + 1 :=
  C7_amended [] none initFields 0 rfl

/-- C8: when the mute query succeeds reporting muted, the volume fragment is
the mute glyph whatever the level query would return, success or failure. -/
theorem C8_mute_overrides (volQ : Option Int) : volume (some true) volQ = "🔇 ⸱ " := rfl

/-- Auxiliary: a word run followed by a space is taken whole by the greedy
word scan, which stops exactly at the space. -/
theorem takeWhile_word (tok suf : List Char) (h : ∀ c ∈ tok, isWordChar c = true) :
    (tok ++ ' ' :: suf).takeWhile isWordChar = tok ∧
    (tok ++ ' ' :: suf).dropWhile isWordChar = ' ' :: suf := by
  induction tok with
  | nil =>
    constructor
    · show List.takeWhile isWordChar (' ' :: suf) = []
      rw [List.takeWhile_cons]
      rfl
    · show List.dropWhile isWordChar (' ' :: suf) = ' ' :: suf
      rw [List.dropWhile_cons]
      rfl
  | cons c cs ih =>
    have hc : isWordChar c = true := h c (List.mem_cons_self _ _)
    have hcs : ∀ x ∈ cs, isWordChar x = true := fun x hx => h x (List.mem_cons_of_mem _ hx)
    have ihc := ih hcs
    constructor
    · show List.takeWhile isWordChar (c :: (cs ++ ' ' :: suf)) = c :: cs
      rw [List.takeWhile_cons, hc, ihc.1]
      rfl
    · show List.dropWhile isWordChar (c :: (cs ++ ' ' :: suf)) = ' ' :: suf
      rw [List.dropWhile_cons, hc, ihc.2]
      rfl

/-- Auxiliary: the anchored attempt succeeds on a literal dev-space header
followed by a nonempty word run and a space, capturing exactly that run. -/
theorem matchDevAt_success (tok suf : List Char) (h1 : tok ≠ [])
    (h2 : ∀ c ∈ tok, isWordChar c = true) :
    matchDevAt ('d' :: 'e' :: 'v' :: ' ' :: (tok ++ ' ' :: suf)) = some (String.mk tok) := by
  have hw := takeWhile_word tok suf h2
  have hdef : matchDevAt ('d' :: 'e' :: 'v' :: ' ' :: (tok ++ ' ' :: suf)) =
      (if (tok ++ ' ' :: suf).takeWhile isWordChar ≠ [] ∧
          ((tok ++ ' ' :: suf).dropWhile isWordChar).head? = some ' ' then
        some (String.mk ((tok ++ ' ' :: suf).takeWhile isWordChar))
      else none) := rfl
  rw [hdef, hw.1, hw.2]
  simp [h1]

/-- Auxiliary: scanning a longer output cannot lose a match present in its
tail. -/
theorem findDev_append_isSome (x y : List Char) (h : (findDev y).isSome) :
    (findDev (x ++ y)).isSome := by
  induction x with
  | nil => simpa using h
  | cons c cs ih =>
    show (findDev (c :: (cs ++ y))).isSome
    unfold findDev
    cases hm : matchDevAt (c :: (cs ++ y)) with
    | some tok => rfl
    | none => exact ih

/-- C9 counterexample: the output contains a word token right after the
literal dev-space text, yet route resolution fails, because the source regex
also demands a space after the token; adding that trailing space makes the
very same output resolve. -/
theorem C9_counterexample :
    get_current_interface (some "ip route: dev eth0") =
      Except.error "No current interface." ∧
    get_current_interface (some "ip route: dev eth0 ") = Except.ok "eth0" :=
  ⟨rfl, rfl⟩

/-- C9 amended: route resolution parses the first word token that follows the
literal dev-space text and is itself terminated by a further space; whenever
the output starts with such a header the captured token is returned exactly,
and whenever such a space-terminated token occurs anywhere in the output the
resolution succeeds (with the leftmost capture). Without the terminating
space the token is not matched. -/
theorem C9_amended (pre tok suf : List Char) (h1 : tok ≠ [])
    (h2 : ∀ c ∈ tok, isWordChar c = true) :
    get_current_interface
        (some (String.mk ('d' :: 'e' :: 'v' :: ' ' :: (tok ++ ' ' :: suf)))) =
      Except.ok (String.mk tok) ∧
    ∃ iface : String,
      get_current_interface
          (some (String.mk (pre ++ 'd' :: 'e' :: 'v' :: ' ' :: (tok ++ ' ' :: suf)))) =
        Except.ok iface := by
  have hm := matchDevAt_success tok suf h1 h2
  constructor
  · unfold get_current_interface
    show (match findDev ('d' :: 'e' :: 'v' :: ' ' :: (tok ++ ' ' :: suf)) with
          | some iface => Except.ok iface
          | none => Except.error "No current interface.") = Except.ok (String.mk tok)
    unfold findDev
    rw [hm]
  · have hsome : (findDev ('d' :: 'e' :: 'v' :: ' ' :: (tok ++ ' ' :: suf))).isSome := by
      unfold findDev
      rw [hm]
      rfl
    have hall := findDev_append_isSome pre _ hsome
    obtain ⟨iface, hif⟩ := Option.isSome_iff_exists.mp hall
    refine ⟨iface, ?_⟩
    unfold get_current_interface
    show (match findDev (pre ++ 'd' :: 'e' :: 'v' :: ' ' :: (tok ++ ' ' :: suf)) with
          | some iface => Except.ok iface
          | none => Except.error "No current interface.") = Except.ok iface
    rw [hif]

/-- C9 witness: a concrete space-terminated output resolves to its token. -/
theorem C9_witness :
    get_current_interface
        (some (String.mk ('d' :: 'e' :: 'v' :: ' ' :: (['e', 't', 'h', '0'] ++ ' ' :: [])))) =
      Except.ok (String.mk ['e', 't', 'h', '0']) :=
  (C9_amended [] ['e', 't', 'h', '0'] [] (by decide) (by decide)).1

/-- C10: for a successfully parsed, not-muted level the speaker glyph is the
low one exactly on the range 0 to 33, the medium one exactly on 34 to 66, and
the high one exactly outside both, so any negative level renders as the
high-volume glyph followed by the numeral. -/
theorem C10_speaker_ranges (v : Int) :
    (speaker v = "🔈" ↔ 0 ≤ v ∧ v ≤ 33) ∧
    (speaker v = "🔉" ↔ 34 ≤ v ∧ v ≤ 66) ∧
    (speaker v = "🔊" ↔ v < 0 ∨ 66 < v) ∧
    (v < 0 → volume (some false) (some v) = "🔊" ++ " " ++ toString v ++ " ⸱ ") := by
  have gBC : ("🔈" : String) ≠ "🔉" := by decide
  have gBH : ("🔈" : String) ≠ "🔊" := by decide
  have gCH : ("🔉" : String) ≠ "🔊" := by decide
  have hvol : ∀ w : Int, volume (some false) (some w) = speaker w ++ " " ++ toString w ++ " ⸱ " :=
    fun w => rfl
  by_cases hA : 0 ≤ v ∧ v ≤ 33
  · have hs : speaker v = "🔈" := by simp [speaker, hA]
    refine ⟨by simp [hs, hA], ?_, ?_, ?_⟩
    · rw [hs]
      exact ⟨fun hh => absurd hh gBC, fun hh => by exfalso; omega⟩
    · rw [hs]
      exact ⟨fun hh => absurd hh gBH, fun hh => by exfalso; omega⟩
    · intro hneg; exfalso; omega
  · by_cases hB : 34 ≤ v ∧ v ≤ 66
    · have hs : speaker v = "🔉" := by simp [speaker, hA, hB]
      refine ⟨?_, by simp [hs, hB], ?_, ?_⟩
      · rw [hs]
        exact ⟨fun hh => absurd hh.symm gBC, fun hh => by exfalso; omega⟩
      · rw [hs]
        exact ⟨fun hh => absurd hh gCH, fun hh => by exfalso; omega⟩
      · intro hneg; exfalso; omega
    · have hs : speaker v = "🔊" := by simp [speaker, hA, hB]
      refine ⟨?_, ?_, ?_, ?_⟩
      · rw [hs]
        exact ⟨fun hh => absurd hh.symm gBH, fun hh => absurd hh hA⟩
      · rw [hs]
        exact ⟨fun hh => absurd hh.symm gCH, fun hh => absurd hh hB⟩
      · rw [hs]
        exact ⟨fun _ => by omega, fun _ => rfl⟩
      · intro hneg
        rw [hvol v, hs]

/-- C10 witness: a concrete negative level renders with the high glyph. -/
theorem C10_witness :
    volume (some false) (some (-7)) = "🔊" ++ " " ++ toString (-7 : Int) ++ " ⸱ " :=
  (C10_speaker_ranges (-7)).2.2.2 (by decide)

end DwmStatus
